import Mathlib

/-!
Verification of the VerticalVideoCropper crop-window decision engine.

The definitions below are a shallow embedding of the Python sources
`vertical_video_cropper.py` (batch tool) and `gui_app.py` (front end).
Pure numeric code is translated to functions over `ℤ` / `ℚ` / `ℕ`
(Python's binary floats are modelled by exact rationals, Python `int()`
by truncation toward zero, Python `//` by floor division); the external
OpenCV capabilities (face detector, Farneback optical flow, resize,
colour conversion) are taken as parameters, exactly at the capability
boundary the code calls them.
-/

namespace VVC

/-- Python `int(q)`: truncation toward zero (floor for nonnegative
arguments, ceiling for negative ones). -/
def pyInt (q : ℚ) : ℤ := if 0 ≤ q then ⌊q⌋ else ⌈q⌉

/-- Python integer floor division `a // b`. -/
def pyFloorDiv (a b : ℤ) : ℤ := Int.fdiv a b

/-- The crop-window clamp shared (textually duplicated) by all three
strategies in `vertical_video_cropper.py`:

    crop_x_start = int(current_x)
    crop_x_end = min(crop_x_start + vertical_width, original_width)
    if crop_x_end - crop_x_start < vertical_width:
        crop_x_start = max(0, crop_x_end - vertical_width)

`c` is the (already integral) tracked position, `tw` the target width,
`w` the width of the frame being cropped. -/
def clampWindow (c tw w : ℤ) : ℤ × ℤ :=
  let s := c
  let e := min (s + tw) w
  if e - s < tw then (max 0 (e - tw), e) else (s, e)

/-! ### Target geometry (`crop_to_vertical`, lines 121-131)

    vertical_height = int(original_height)
    vertical_width = int(vertical_height * 9 / 16)
    if original_width < vertical_width: ... return False
-/

/-- Target width `int(vertical_height * 9 / 16)`.  Python evaluates
`h * 9 / 16` in float; the float result of dividing the exact integer
`h * 9` by 16 truncates to the same value as natural floor division. -/
def cropTargetWidth (h : ℕ) : ℕ := h * 9 / 16

/-- Target height `int(original_height)`. -/
def cropTargetHeight (h : ℕ) : ℕ := h

/-! ### The frame-write loop (`_write_cropped_video`, lines 365-404)

Per source frame the crop function either raises (modelled `exn`),
returns a degenerate/None buffer, or returns a buffer of shape `h × w`.
A raised exception or a degenerate shape prints a warning and `continue`s
without incrementing `frame_count`; a good frame is normalized and
written. The function returns `True` at the end of the stream. -/

inductive FrameResult where
  | exn (msg : String)
  | noneFrame
  | frame (h w : ℕ)
deriving DecidableEq, Repr

/-- A frame result that is written (crop function returned a buffer of
nonzero shape). -/
def FrameResult.written : FrameResult → Bool
  | .exn _ => false
  | .noneFrame => false
  | .frame h w => !(h = 0 || w = 0)

/-- The while-loop body of `_write_cropped_video`, threading the
`frame_count` accumulator and the number of warning lines printed. -/
def writeLoop : List FrameResult → ℕ → ℕ → ℕ × ℕ
  | [], written, warns => (written, warns)
  | .exn _ :: rs, written, warns => writeLoop rs written (warns + 1)
  | .noneFrame :: rs, written, warns => writeLoop rs written (warns + 1)
  | .frame h w :: rs, written, warns =>
      if h = 0 || w = 0 then writeLoop rs written (warns + 1)
      else writeLoop rs (written + 1) warns

/-- `_write_cropped_video`: returns (frames written, warnings, success).
Success is unconditionally `True` once the writer is open. -/
def writeCroppedVideo (rs : List FrameResult) : ℕ × ℕ × Bool :=
  ((writeLoop rs 0 0).1, (writeLoop rs 0 0).2, true)

/-! ### The whole-job geometry gate (`crop_to_vertical`)

The geometry check happens after the stream info is read and before any
frame is read: on `original_width < vertical_width` the function returns
`False` without entering any strategy loop. -/

inductive JobError where
  | incompatibleGeometry (w tw : ℕ)
deriving DecidableEq, Repr

/-- `crop_to_vertical` restricted to the geometry gate and the frame
loop (source opened, mode valid, writer opened): the frame results are
not consulted at all when the geometry check fails. -/
def cropToVertical (w h : ℕ) (rs : List FrameResult) :
    Except JobError (ℕ × ℕ × Bool) :=
  if w < cropTargetWidth h then
    .error (.incompatibleGeometry w (cropTargetWidth h))
  else
    .ok (writeCroppedVideo rs)

/-! ### Face-tracking strategy (`_crop_with_face_detection`, lines 162-241)

The external Haar-cascade detector returns, per frame, a list of
rectangles; the list is the strategy's input here. -/

structure Rect where
  x : ℤ
  y : ℤ
  w : ℤ
  h : ℤ
deriving DecidableEq, Repr

/-- Python `max(faces, key=lambda f: f[2] * f[3])`: the first rectangle
of maximal area, `none` on an empty list. -/
def bestFace? (faces : List Rect) : Option Rect :=
  faces.foldl
    (fun acc f =>
      match acc with
      | none => some f
      | some g => if g.w * g.h < f.w * f.h then some f else some g)
    none

structure FaceState where
  currentX : ℤ
  faceDetected : Bool
  lastFaceX : ℤ
  faceCount : ℕ
deriving DecidableEq, Repr

/-- The static center position `(original_width - vertical_width) // 2`
used by the center strategy and as the face tracker's fallback. -/
def centerX (w tw : ℤ) : ℤ := pyFloorDiv (w - tw) 2

/-- Initial tracker state (lines 173-176). -/
def initFaceState (w tw : ℤ) : FaceState :=
  { currentX := centerX w tw
    faceDetected := false
    lastFaceX := centerX w tw
    faceCount := 0 }

/-- `current_x = int(smoothing_factor * current_x + (1 - smoothing_factor)
* target_x)` with the hard-coded `smoothing_factor = 0.9` (lines 207-208).
The float constants are idealized as exact rationals, so the second
coefficient `1 - 0.9` is exactly `1/10` here while in IEEE doubles it is
slightly below `1/10`; at inputs where the exact sum lands on an integer
the code can therefore truncate one lower than this model (e.g. `c = 0`,
`t = 10` gives 0 in the code, 1 here). Statements whose conclusion is
sensitive to this are evaluated only at inputs where the code's double
arithmetic and this model provably agree (such as `c = 5`, `t = 10`,
where both the code's intermediate double and the model's rational are
exactly 5.5). -/
def faceEmaUpdate (c t : ℤ) : ℤ :=
  pyInt ((9 : ℚ) / 10 * c + (1 - (9 : ℚ) / 10) * t)

/-- `face_center_x = x + w // 2` then `face_center_x += right_offset`. -/
def faceCenterX (ro : ℤ) (f : Rect) : ℤ := f.x + pyFloorDiv f.w 2 + ro

/-- `target_x = max(0, min(face_center_x - vertical_width // 2,
original_width - vertical_width))` (line 204). -/
def faceTargetX (w tw ro : ℤ) (f : Rect) : ℤ :=
  max 0 (min (faceCenterX ro f - pyFloorDiv tw 2) (w - tw))

/-- One call of `dynamic_face_crop_function` (lines 178-229): the state
update followed by the crop-window clamp on the original frame. -/
def faceStep (w tw ro : ℤ) (faces : List Rect) (st : FaceState) :
    FaceState × (ℤ × ℤ) :=
  let st' :=
    match bestFace? faces with
    | some f =>
        { currentX := faceEmaUpdate st.currentX (faceTargetX w tw ro f)
          faceDetected := true
          lastFaceX := faceCenterX ro f
          faceCount := st.faceCount + 1 }
    | none =>
        if st.faceDetected then st
        else { st with currentX := centerX w tw }
  (st', clampWindow st'.currentX tw w)

/-- The per-frame loop of the face strategy: one detection list per
source frame, producing one crop window per frame. -/
def faceRun (w tw ro : ℤ) : FaceState → List (List Rect) → List (ℤ × ℤ)
  | _, [] => []
  | st, faces :: rest =>
      let s := faceStep w tw ro faces st
      s.2 :: faceRun w tw ro s.1 rest

/-- The windows of a whole face-strategy job, from the initial state. -/
def faceWindows (w tw ro : ℤ) (dets : List (List Rect)) : List (ℤ × ℤ) :=
  faceRun w tw ro (initFaceState w tw) dets

/-! ### Exponential-moving-average iteration (spec §8, claim about
constant `target_x`) -/

/-- `n` code iterations of the smoothing update with `target_x` held
constant at `t`. -/
def faceEmaIter (t : ℤ) : ℕ → ℤ → ℤ
  | 0, c => c
  | n + 1, c => faceEmaIter t n (faceEmaUpdate c t)

/-! ### Empty-detection behaviour (lines 212-219) -/

/-- `n` consecutive frames on which the detector returns the empty set. -/
def faceStateAfterEmpties (w tw ro : ℤ) : ℕ → FaceState → FaceState
  | 0, st => st
  | n + 1, st => faceStateAfterEmpties w tw ro n (faceStep w tw ro [] st).1

/-! ### Motion-tracking strategy (`_crop_with_motion_tracking`,
lines 243-334)

The externally computed quantities are abstracted at the exact
capability boundary of the code: `grayOf` stands for
`cv2.cvtColor(cv2.resize(frame, ...), COLOR_BGR2GRAY)` applied to a
source frame, and `magOf p c` stands for the per-pixel magnitude
`sqrt(flow[...,0]**2 + flow[...,1]**2)` of the Farneback flow between
two such grayscale frames, as a row-major matrix of rationals. -/

/-- `update_interval = max(1, int(fps * motion_config['update_interval']))`
(line 266). -/
def motionUpdateInterval (fps s : ℚ) : ℤ := max 1 (pyInt (fps * s))

structure MotionCfg where
  updateInterval : ℤ
  motionThreshold : ℚ
  smoothing : ℚ
  scaledWidth : ℕ
  targetWidth : ℤ
deriving DecidableEq, Repr

structure MotionState (γ : Type) where
  smoothedX : ℤ
  prevGray : Option γ
deriving DecidableEq, Repr

/-- `smoothed_x = 0`, `prev_gray = None` (lines 272-273). -/
def motionInitState (γ : Type) : MotionState γ :=
  { smoothedX := 0, prevGray := none }

/-- `np.any(significant_motion)` where
`significant_motion = magnitude > motion_threshold`. -/
def maskNonEmpty (thr : ℚ) (mag : List (List ℚ)) : Bool :=
  mag.any (fun row => row.any (fun v => thr < v))

/-- Column `j` of `np.sum(magnitude * significant_motion, axis=0)`. -/
def colWeight (thr : ℚ) (mag : List (List ℚ)) (j : ℕ) : ℚ :=
  (mag.map (fun row => if thr < row.getD j 0 then row.getD j 0 else 0)).sum

/-- `np.sum(col_motion)`. -/
def totalWeight (thr : ℚ) (sw : ℕ) (mag : List (List ℚ)) : ℚ :=
  ((List.range sw).map (colWeight thr mag)).sum

/-- `int(np.average(np.arange(scaled_width), weights=col_motion))`. -/
def motionX (thr : ℚ) (sw : ℕ) (mag : List (List ℚ)) : ℤ :=
  pyInt ((((List.range sw).map
      (fun (j : ℕ) => (j : ℚ) * colWeight thr mag j)).sum)
    / totalWeight thr sw mag)

/-- One call of `motion_crop_function` (lines 275-331), restricted to
the tracker-state update and the crop window it applies to the resized
frame. `frameIndex` is `int(cap.get(cv2.CAP_PROP_POS_FRAMES))`, i.e. 1
on the first frame read. -/
def motionStep {φ γ : Type} (grayOf : φ → γ) (magOf : γ → γ → List (List ℚ))
    (cfg : MotionCfg) (frameIndex : ℤ) (frame : φ) (st : MotionState γ) :
    MotionState γ × (ℤ × ℤ) :=
  let st' :=
    if frameIndex % cfg.updateInterval = 0 then
      let curr := grayOf frame
      let sx :=
        match st.prevGray with
        | none => st.smoothedX
        | some p =>
            let mag := magOf p curr
            if maskNonEmpty cfg.motionThreshold mag then
              if 0 < totalWeight cfg.motionThreshold cfg.scaledWidth mag then
                let mx := motionX cfg.motionThreshold cfg.scaledWidth mag
                let t := max 0 (min (mx - pyFloorDiv cfg.targetWidth 2)
                  ((cfg.scaledWidth : ℤ) - cfg.targetWidth))
                pyInt (cfg.smoothing * st.smoothedX + (1 - cfg.smoothing) * t)
              else st.smoothedX
            else st.smoothedX
      { smoothedX := sx, prevGray := some curr }
    else st
  (st', clampWindow st'.smoothedX cfg.targetWidth (cfg.scaledWidth : ℤ))

/-- The gating condition named by the spec: the frame is a refresh frame
and a significant-motion mask exists and is non-empty. -/
def refreshMaskCond {φ γ : Type} (grayOf : φ → γ)
    (magOf : γ → γ → List (List ℚ)) (cfg : MotionCfg) (frameIndex : ℤ)
    (frame : φ) (st : MotionState γ) : Bool :=
  decide (frameIndex % cfg.updateInterval = 0) &&
    (match st.prevGray with
     | none => false
     | some p => maskNonEmpty cfg.motionThreshold (magOf p (grayOf frame)))

/-- The per-frame loop of the motion strategy, with the running
`POS_FRAMES` counter threaded through. -/
def motionRun {φ γ : Type} (grayOf : φ → γ)
    (magOf : γ → γ → List (List ℚ)) (cfg : MotionCfg) :
    MotionState γ → ℤ → List φ → List (ℤ × ℤ)
  | _, _, [] => []
  | st, idx, f :: fs =>
      let s := motionStep grayOf magOf cfg idx f st
      s.2 :: motionRun grayOf magOf cfg s.1 (idx + 1) fs

/-- The windows of a whole motion-strategy job, from the initial state
(the first frame read has `POS_FRAMES = 1`). -/
def motionWindows {φ γ : Type} (grayOf : φ → γ)
    (magOf : γ → γ → List (List ℚ)) (cfg : MotionCfg) (fs : List φ) :
    List (ℤ × ℤ) :=
  motionRun grayOf magOf cfg (motionInitState γ) 1 fs

/-- True when the gating condition of `refreshMaskCond` fails on every
frame of the run. -/
def noEarlyMotion {φ γ : Type} (grayOf : φ → γ)
    (magOf : γ → γ → List (List ℚ)) (cfg : MotionCfg) :
    MotionState γ → ℤ → List φ → Bool
  | _, _, [] => true
  | st, idx, f :: fs =>
      !refreshMaskCond grayOf magOf cfg idx f st &&
        noEarlyMotion grayOf magOf cfg
          (motionStep grayOf magOf cfg idx f st).1 (idx + 1) fs

/-! ### Center strategy (`_crop_center`, lines 336-348) -/

/-- The fixed window `frame[:, x_start:x_start+vertical_width]` with
`x_start = (original_width - vertical_width) // 2`. -/
def centerWindow (w tw : ℤ) : ℤ × ℤ := (centerX w tw, centerX w tw + tw)

/-! ### The GUI worker (`gui_app.py`) -/

structure Outcome where
  success : Bool
  message : String
deriving DecidableEq, Repr

/-- The terminal situations of `CropWorker.run` (lines 44-95): the
source cannot be opened, the geometry gate fails, an exception escapes,
or the strategy loop returns `success` with the cooperative-cancel flag
`self.running` in its final state. -/
inductive WorkerEnd where
  | cannotOpen (path : String)
  | badGeometry (w tw : ℕ)
  | exnDuring (msg : String)
  | loopDone (success running : Bool)
deriving DecidableEq, Repr

/-- The single `finished_signal.emit(success, message)` of
`CropWorker.run` for each terminal situation, following lines 50, 69,
87-92 and 95. -/
def workerOutcome : WorkerEnd → Outcome
  | .cannotOpen p =>
      { success := false, message := "无法打开视频文件 " ++ p }
  | .badGeometry w tw =>
      { success := false
        message := "输入视频宽度(" ++ toString w ++ ")小于目标宽度(" ++
          toString tw ++ ")" }
  | .exnDuring m =>
      { success := false, message := "裁剪过程中发生错误: " ++ m }
  | .loopDone s r =>
      if s && r then { success := true, message := "视频裁剪成功完成!" }
      else if !r then { success := false, message := "用户取消了处理" }
      else { success := false, message := "视频裁剪失败" }

/-- A job that ran to completion: the loop returned `True` and no stop
was requested. -/
def WorkerEnd.isCompleted : WorkerEnd → Bool
  | .loopDone s r => s && r
  | _ => false

/-- A cancelled job: `stop()` cleared `self.running` before the final
branch (line 89-90). -/
def WorkerEnd.isCancelled : WorkerEnd → Bool
  | .loopDone _ r => !r
  | _ => false

/-- A failed job: any terminal situation that is neither completion nor
cancellation. -/
def WorkerEnd.isFailed (e : WorkerEnd) : Bool :=
  !e.isCompleted && !e.isCancelled

/-! ### The GUI per-frame code paths compared by the spec's open
question: `_motion_tracking_crop` (lines 191-257) versus `_center_crop`
(lines 259-304)

`toGray`, `flowOf`, `sliceCols`, `shape` and `resize` abstract
`cv2.cvtColor`, `cv2.calcOpticalFlowFarneback`, numpy column slicing,
`.shape` and `cv2.resize`; `shape` returns (rows, cols). -/

/-- The per-frame body of `_center_crop`. -/
def guiCenterFrame {φ : Type} (sliceCols : φ → ℤ → ℤ → φ)
    (shape : φ → ℕ × ℕ) (resize : φ → ℕ → ℕ → φ) (w tw th : ℕ)
    (frame : φ) : φ :=
  let xs := pyFloorDiv ((w : ℤ) - tw) 2
  let cropped := sliceCols frame xs (xs + tw)
  if (shape cropped).2 ≠ tw ∨ (shape cropped).1 ≠ th then
    resize cropped tw th
  else cropped

/-- The per-frame body of `_motion_tracking_crop`: the optical flow is
computed (when a previous grayscale frame exists) and bound to an unused
local, then the frame is center-cropped by the same inline code as
`_center_crop`. -/
def guiMotionStep {φ γ δ : Type} (toGray : φ → γ) (flowOf : γ → γ → δ)
    (sliceCols : φ → ℤ → ℤ → φ) (shape : φ → ℕ × ℕ)
    (resize : φ → ℕ → ℕ → φ) (w tw th : ℕ) (prev : Option γ) (frame : φ) :
    Option γ × φ :=
  let gray := toGray frame
  let _flow : Option δ :=
    match prev with
    | some p => some (flowOf p gray)
    | none => none
  let xs := pyFloorDiv ((w : ℤ) - tw) 2
  let cropped := sliceCols frame xs (xs + tw)
  let outFrame :=
    if (shape cropped).2 ≠ tw ∨ (shape cropped).1 ≠ th then
      resize cropped tw th
    else cropped
  (some gray, outFrame)

/-- The frame loop of `_motion_tracking_crop`, collecting the frames it
writes. -/
def guiMotionRun {φ γ δ : Type} (toGray : φ → γ) (flowOf : γ → γ → δ)
    (sliceCols : φ → ℤ → ℤ → φ) (shape : φ → ℕ × ℕ)
    (resize : φ → ℕ → ℕ → φ) (w tw th : ℕ) :
    Option γ → List φ → List φ
  | _, [] => []
  | prev, f :: fs =>
      let s := guiMotionStep toGray flowOf sliceCols shape resize w tw th
        prev f
      s.2 :: guiMotionRun toGray flowOf sliceCols shape resize w tw th
        s.1 fs

/-- Rounding to the nearest integer (round-half-up), the reading of the
spec's word `round`; written only to compare the spec's formula with the
code's. -/
def specRoundNearest (q : ℚ) : ℤ := ⌊q + 1 / 2⌋

/-- The fault-injection scenario of spec §8: a 100-frame job whose crop
function raises `DetectionFailure` on frames 10-20 and produces a
1080×607 buffer elsewhere. -/
def faultScenario : List FrameResult :=
  (List.range 100).map
    (fun i => if 10 ≤ i ∧ i ≤ 20 then FrameResult.exn "DetectionFailure"
      else FrameResult.frame 1080 607)

/-! ## Theorems -/

theorem pyInt_of_nonneg {q : ℚ} (h : 0 ≤ q) : pyInt q = ⌊q⌋ := if_pos h

theorem pyInt_nonneg {q : ℚ} (h : 0 ≤ q) : 0 ≤ pyInt q := by
  rw [pyInt_of_nonneg h]
  exact Int.floor_nonneg.mpr h

theorem pyFloorDiv_nonneg {a b : ℤ} (ha : 0 ≤ a) (hb : 0 ≤ b) :
    0 ≤ pyFloorDiv a b := Int.fdiv_nonneg ha hb

theorem pyFloorDiv_two_le_self {a : ℤ} (ha : 0 ≤ a) : pyFloorDiv a 2 ≤ a := by
  unfold pyFloorDiv
  rw [Int.fdiv_eq_ediv _ (by norm_num)]
  exact Int.ediv_le_self 2 ha

theorem clampWindow_spec {c tw w : ℤ} (hc : 0 ≤ c) (htw : 0 ≤ tw)
    (hw : tw ≤ w) :
    0 ≤ (clampWindow c tw w).1 ∧ (clampWindow c tw w).2 ≤ w ∧
      (clampWindow c tw w).2 - (clampWindow c tw w).1 = tw := by
  unfold clampWindow
  simp only [min_def, max_def]
  split_ifs <;> constructor <;> simp_all <;> omega

/-- The window produced when the tracked position is exactly 0 and the
frame is at least `tw` wide is the leftmost full-width window. -/
theorem clampWindow_zero {tw w : ℤ} (htw : 0 ≤ tw) (hw : tw ≤ w) :
    clampWindow 0 tw w = (0, tw) := by
  unfold clampWindow
  simp only [min_def]
  split_ifs <;> simp_all <;> omega

theorem writeLoop_acc (rs : List FrameResult) :
    ∀ written warns, writeLoop rs written warns =
      (written + rs.countP (·.written),
        warns + rs.countP (fun r => !r.written)) := by
  induction rs with
  | nil => intro written warns; simp [writeLoop]
  | cons r rs ih =>
    intro written warns
    cases r with
    | exn m =>
      simp [writeLoop, ih, List.countP_cons, FrameResult.written]
      omega
    | noneFrame =>
      simp [writeLoop, ih, List.countP_cons, FrameResult.written]
      omega
    | frame h w =>
      by_cases hh : h = 0
      · simp [writeLoop, hh, ih, List.countP_cons, FrameResult.written]
        omega
      · by_cases hw : w = 0
        · simp [writeLoop, hh, hw, ih, List.countP_cons, FrameResult.written]
          omega
        · simp [writeLoop, hh, hw, ih, List.countP_cons, FrameResult.written]
          omega

theorem centerX_nonneg {w tw : ℤ} (h : tw ≤ w) : 0 ≤ centerX w tw :=
  pyFloorDiv_nonneg (by omega) (by norm_num)

theorem faceEmaUpdate_nonneg {c t : ℤ} (hc : 0 ≤ c) (ht : 0 ≤ t) :
    0 ≤ faceEmaUpdate c t := by
  apply pyInt_nonneg
  have hc' : (0 : ℚ) ≤ (c : ℚ) := by exact_mod_cast hc
  have ht' : (0 : ℚ) ≤ (t : ℚ) := by exact_mod_cast ht
  nlinarith

theorem faceTargetX_nonneg (w tw ro : ℤ) (f : Rect) :
    0 ≤ faceTargetX w tw ro f := le_max_left 0 _

theorem faceStep_currentX_nonneg {w tw ro : ℤ} {faces : List Rect}
    {st : FaceState} (hw : tw ≤ w) (hc : 0 ≤ st.currentX) :
    0 ≤ (faceStep w tw ro faces st).1.currentX := by
  unfold faceStep
  cases hb : bestFace? faces with
  | some f =>
    simpa [hb] using
      faceEmaUpdate_nonneg hc (faceTargetX_nonneg w tw ro f)
  | none =>
    cases hd : st.faceDetected <;> simp [hb, hd, hc, centerX_nonneg hw]

theorem faceRun_windows {w tw ro : ℤ} (htw : 0 ≤ tw) (hw : tw ≤ w) :
    ∀ (dets : List (List Rect)) (st : FaceState), 0 ≤ st.currentX →
      ∀ win ∈ faceRun w tw ro st dets,
        0 ≤ win.1 ∧ win.2 ≤ w ∧ win.2 - win.1 = tw := by
  intro dets
  induction dets with
  | nil => intro st _ win hmem; simp [faceRun] at hmem
  | cons faces rest ih =>
    intro st hc win hmem
    rw [faceRun] at hmem
    rcases List.mem_cons.mp hmem with hwin | hwin
    · subst hwin
      show 0 ≤ (faceStep w tw ro faces st).2.1 ∧ _
      have h1 : (faceStep w tw ro faces st).2 =
          clampWindow (faceStep w tw ro faces st).1.currentX tw w := by
        unfold faceStep
        cases bestFace? faces <;> simp
      rw [h1]
      exact clampWindow_spec (faceStep_currentX_nonneg hw hc) htw hw
    · exact ih _ (faceStep_currentX_nonneg hw hc) win hwin

theorem faceEmaUpdate_eq_floor (c t : ℤ) (hc : 0 ≤ c) (ht : 0 ≤ t) :
    faceEmaUpdate c t = ⌊(9 : ℚ) / 10 * c + (1 - (9 : ℚ) / 10) * t⌋ := by
  unfold faceEmaUpdate
  apply pyInt_of_nonneg
  have hc' : (0 : ℚ) ≤ (c : ℚ) := by exact_mod_cast hc
  have ht' : (0 : ℚ) ≤ (t : ℚ) := by exact_mod_cast ht
  nlinarith

/-- One truncated smoothing step contracts the distance to the constant
target by the factor 9/10, up to the unit truncation error. -/
theorem faceEmaUpdate_contract {c t : ℤ} (hc : 0 ≤ c) (ht : 0 ≤ t) :
    |((faceEmaUpdate c t : ℤ) : ℚ) - t| ≤ 9 / 10 * |(c : ℚ) - t| + 1 := by
  rw [faceEmaUpdate_eq_floor c t hc ht]
  have h1 : ((⌊(9 : ℚ) / 10 * c + (1 - (9 : ℚ) / 10) * t⌋ : ℤ) : ℚ) ≤
      (9 : ℚ) / 10 * c + (1 - (9 : ℚ) / 10) * t := Int.floor_le _
  have h2 : (9 : ℚ) / 10 * c + (1 - (9 : ℚ) / 10) * t - 1 <
      ((⌊(9 : ℚ) / 10 * c + (1 - (9 : ℚ) / 10) * t⌋ : ℤ) : ℚ) :=
    Int.sub_one_lt_floor _
  have ha : 9 / 10 * ((c : ℚ) - t) ≤ 9 / 10 * |(c : ℚ) - t| := by
    have := le_abs_self ((c : ℚ) - t)
    linarith
  have hb : -(9 / 10 * |(c : ℚ) - t|) ≤ 9 / 10 * ((c : ℚ) - t) := by
    have := neg_abs_le ((c : ℚ) - t)
    linarith
  rw [abs_le]
  constructor
  · linarith
  · linarith

theorem faceEmaIter_nonneg (t : ℤ) (ht : 0 ≤ t) :
    ∀ (n : ℕ) (c : ℤ), 0 ≤ c → 0 ≤ faceEmaIter t n c := by
  intro n
  induction n with
  | zero => intro c hc; exact hc
  | succ n ih =>
    intro c hc
    exact ih _ (faceEmaUpdate_nonneg hc ht)

/-- Geometric decay of the truncated smoothing iteration: the distance
to a constant target decays by 9/10 per frame up to an accumulated
truncation error that totals `10 * (1 - (9/10)^n)` (< 10). -/
theorem faceEmaIter_decay (t : ℤ) (ht : 0 ≤ t) :
    ∀ (n : ℕ) (c : ℤ), 0 ≤ c →
      |((faceEmaIter t n c : ℤ) : ℚ) - t| ≤
        (9 / 10) ^ n * |(c : ℚ) - t| + 10 * (1 - (9 / 10) ^ n) := by
  intro n
  induction n with
  | zero => intro c hc; simp [faceEmaIter]
  | succ n ih =>
    intro c hc
    have hstep := faceEmaUpdate_contract hc ht
    have hih := ih (faceEmaUpdate c t) (faceEmaUpdate_nonneg hc ht)
    have hpow : (0 : ℚ) ≤ (9 / 10) ^ n := by positivity
    have hscaled :=
      mul_le_mul_of_nonneg_left hstep hpow
    rw [faceEmaIter]
    calc |((faceEmaIter t n (faceEmaUpdate c t) : ℤ) : ℚ) - t| ≤
          (9 / 10) ^ n * |((faceEmaUpdate c t : ℤ) : ℚ) - t| +
            10 * (1 - (9 / 10) ^ n) := hih
      _ ≤ (9 / 10) ^ n * (9 / 10 * |(c : ℚ) - t| + 1) +
            10 * (1 - (9 / 10) ^ n) := by linarith
      _ = (9 / 10) ^ (n + 1) * |(c : ℚ) - t| +
            10 * (1 - (9 / 10) ^ (n + 1)) := by ring

theorem faceStep_empty_detected {w tw ro : ℤ} {st : FaceState}
    (hd : st.faceDetected = true) :
    (faceStep w tw ro [] st).1 = st := by
  simp [faceStep, bestFace?, hd]

theorem faceStep_empty_never {w tw ro : ℤ} {st : FaceState}
    (hd : st.faceDetected = false) :
    (faceStep w tw ro [] st).1 = { st with currentX := centerX w tw } := by
  simp [faceStep, bestFace?, hd]

theorem faceStateAfterEmpties_hold {w tw ro : ℤ} :
    ∀ (n : ℕ) (st : FaceState), st.faceDetected = true →
      faceStateAfterEmpties w tw ro n st = st := by
  intro n
  induction n with
  | zero => intro st _; rfl
  | succ n ih =>
    intro st hd
    rw [faceStateAfterEmpties, faceStep_empty_detected hd, ih st hd]

/-- If the gating condition fails, the tracked position is unchanged. -/
theorem motionStep_hold {φ γ : Type} (grayOf : φ → γ)
    (magOf : γ → γ → List (List ℚ)) (cfg : MotionCfg) (frameIndex : ℤ)
    (frame : φ) (st : MotionState γ)
    (h : refreshMaskCond grayOf magOf cfg frameIndex frame st = false) :
    (motionStep grayOf magOf cfg frameIndex frame st).1.smoothedX =
      st.smoothedX := by
  unfold refreshMaskCond at h
  unfold motionStep
  by_cases hr : frameIndex % cfg.updateInterval = 0
  · cases hp : st.prevGray with
    | none => simp [hr, hp]
    | some p =>
      have hm : maskNonEmpty cfg.motionThreshold (magOf p (grayOf frame))
          = false := by
        simpa [hr, hp] using h
      simp [hr, hp, hm]
  · simp [hr]

theorem motionStep_smoothedX_nonneg {φ γ : Type} (grayOf : φ → γ)
    (magOf : γ → γ → List (List ℚ)) (cfg : MotionCfg) (frameIndex : ℤ)
    (frame : φ) (st : MotionState γ) (hs0 : 0 ≤ cfg.smoothing)
    (hs1 : cfg.smoothing ≤ 1) (hc : 0 ≤ st.smoothedX) :
    0 ≤ (motionStep grayOf magOf cfg frameIndex frame st).1.smoothedX := by
  unfold motionStep
  by_cases hr : frameIndex % cfg.updateInterval = 0
  · cases hp : st.prevGray with
    | none => simp [hr, hp, hc]
    | some p =>
      by_cases hm : maskNonEmpty cfg.motionThreshold (magOf p (grayOf frame))
      · by_cases ht : 0 < totalWeight cfg.motionThreshold cfg.scaledWidth
            (magOf p (grayOf frame))
        · simp only [hr, hp, hm, ht, if_true, if_pos]
          apply pyInt_nonneg
          have hc' : (0 : ℚ) ≤ (st.smoothedX : ℚ) := by exact_mod_cast hc
          have htx : (0 : ℤ) ≤ max 0 (min (motionX cfg.motionThreshold
              cfg.scaledWidth (magOf p (grayOf frame)) -
                pyFloorDiv cfg.targetWidth 2)
              ((cfg.scaledWidth : ℤ) - cfg.targetWidth)) := le_max_left 0 _
          have htx' : (0 : ℚ) ≤ ((max 0 (min (motionX cfg.motionThreshold
              cfg.scaledWidth (magOf p (grayOf frame)) -
                pyFloorDiv cfg.targetWidth 2)
              ((cfg.scaledWidth : ℤ) - cfg.targetWidth)) : ℤ) : ℚ) := by
            exact_mod_cast htx
          nlinarith
        · simp [hr, hp, hm, ht, hc]
      · simp [hr, hp, hm, hc]
  · simp [hr, hc]

theorem motionRun_windows {φ γ : Type} (grayOf : φ → γ)
    (magOf : γ → γ → List (List ℚ)) (cfg : MotionCfg)
    (htw : 0 ≤ cfg.targetWidth) (hw : cfg.targetWidth ≤ (cfg.scaledWidth : ℤ))
    (hs0 : 0 ≤ cfg.smoothing) (hs1 : cfg.smoothing ≤ 1) :
    ∀ (fs : List φ) (st : MotionState γ) (idx : ℤ), 0 ≤ st.smoothedX →
      ∀ win ∈ motionRun grayOf magOf cfg st idx fs,
        0 ≤ win.1 ∧ win.2 ≤ (cfg.scaledWidth : ℤ) ∧ win.2 - win.1 =
          cfg.targetWidth := by
  intro fs
  induction fs with
  | nil => intro st idx _ win hmem; simp [motionRun] at hmem
  | cons f fs ih =>
    intro st idx hc win hmem
    rw [motionRun] at hmem
    rcases List.mem_cons.mp hmem with hwin | hwin
    · subst hwin
      have h1 : (motionStep grayOf magOf cfg idx f st).2 =
          clampWindow (motionStep grayOf magOf cfg idx f st).1.smoothedX
            cfg.targetWidth (cfg.scaledWidth : ℤ) := by
        unfold motionStep
        simp
      rw [h1]
      exact clampWindow_spec
        (motionStep_smoothedX_nonneg grayOf magOf cfg idx f st hs0 hs1 hc)
        htw hw
    · exact ih _ _
        (motionStep_smoothedX_nonneg grayOf magOf cfg idx f st hs0 hs1 hc)
        win hwin

theorem motionRun_noEarly {φ γ : Type} (grayOf : φ → γ)
    (magOf : γ → γ → List (List ℚ)) (cfg : MotionCfg)
    (htw : 0 ≤ cfg.targetWidth)
    (hw : cfg.targetWidth ≤ (cfg.scaledWidth : ℤ)) :
    ∀ (fs : List φ) (st : MotionState γ) (idx : ℤ),
      st.smoothedX = 0 →
      noEarlyMotion grayOf magOf cfg st idx fs = true →
      motionRun grayOf magOf cfg st idx fs =
        List.replicate fs.length (0, cfg.targetWidth) := by
  intro fs
  induction fs with
  | nil => intro st idx _ _; rfl
  | cons f fs ih =>
    intro st idx hzero hne
    rw [noEarlyMotion, Bool.and_eq_true, Bool.not_eq_true'] at hne
    have hhold : (motionStep grayOf magOf cfg idx f st).1.smoothedX = 0 := by
      rw [motionStep_hold grayOf magOf cfg idx f st hne.1, hzero]
    have h1 : (motionStep grayOf magOf cfg idx f st).2 =
        clampWindow (motionStep grayOf magOf cfg idx f st).1.smoothedX
          cfg.targetWidth (cfg.scaledWidth : ℤ) := by
      unfold motionStep
      simp
    rw [motionRun, List.length_cons, List.replicate_succ, h1, hhold,
      clampWindow_zero htw hw, ih _ _ hhold hne.2]

theorem centerWindow_spec {w tw : ℤ} (htw : 0 ≤ tw) (hw : tw ≤ w) :
    0 ≤ (centerWindow w tw).1 ∧ (centerWindow w tw).2 ≤ w ∧
      (centerWindow w tw).2 - (centerWindow w tw).1 = tw := by
  refine ⟨centerX_nonneg hw, ?_, by simp [centerWindow]⟩
  have h1 : centerX w tw ≤ w - tw := pyFloorDiv_two_le_self (by omega)
  show centerX w tw + tw ≤ w
  omega

/-- With at least two spare columns the center window starts strictly
right of column 0. -/
theorem centerX_pos {w tw : ℤ} (h : tw + 2 ≤ w) : 0 < centerX w tw := by
  unfold centerX pyFloorDiv
  rw [Int.fdiv_eq_ediv _ (by norm_num)]
  omega

theorem workerOutcome_cancelled {e : WorkerEnd}
    (h : e.isCancelled = true) :
    workerOutcome e = { success := false, message := "用户取消了处理" } := by
  cases e with
  | loopDone s r =>
    cases r with
    | false => cases s <;> rfl
    | true => simp [WorkerEnd.isCancelled] at h
  | cannotOpen p => simp [WorkerEnd.isCancelled] at h
  | badGeometry w tw => simp [WorkerEnd.isCancelled] at h
  | exnDuring m => simp [WorkerEnd.isCancelled] at h

/-! ## Claim theorems -/

/-- C1: for every processed frame, in every strategy (face, motion,
center), under the precondition that the width of the frame being
cropped is at least `targetWidth`, the crop window produced after
clamping satisfies `0 ≤ xStart`, `xEnd ≤` that frame's width, and
`xEnd - xStart = targetWidth`. For the motion strategy the frame being
cropped is the resized frame of width `scaledWidth`, and the smoothing
factor is within the spec's `MotionParams` domain [0, 1). -/
theorem claim_C1_crop_window_invariant :
    (∀ (w tw ro : ℤ), 0 ≤ tw → tw ≤ w → ∀ (dets : List (List Rect)),
      ∀ win ∈ faceWindows w tw ro dets,
        0 ≤ win.1 ∧ win.2 ≤ w ∧ win.2 - win.1 = tw) ∧
    (∀ (φ γ : Type) (grayOf : φ → γ) (magOf : γ → γ → List (List ℚ))
      (cfg : MotionCfg), 0 ≤ cfg.targetWidth →
      cfg.targetWidth ≤ (cfg.scaledWidth : ℤ) → 0 ≤ cfg.smoothing →
      cfg.smoothing ≤ 1 → ∀ (fs : List φ),
      ∀ win ∈ motionWindows grayOf magOf cfg fs,
        0 ≤ win.1 ∧ win.2 ≤ (cfg.scaledWidth : ℤ) ∧
          win.2 - win.1 = cfg.targetWidth) ∧
    (∀ (w tw : ℤ), 0 ≤ tw → tw ≤ w →
      0 ≤ (centerWindow w tw).1 ∧ (centerWindow w tw).2 ≤ w ∧
        (centerWindow w tw).2 - (centerWindow w tw).1 = tw) := by
  refine ⟨?_, ?_, ?_⟩
  · intro w tw ro htw hw dets win hmem
    exact faceRun_windows htw hw dets _ (centerX_nonneg hw) win hmem
  · intro φ γ grayOf magOf cfg htw hw hs0 hs1 fs win hmem
    exact motionRun_windows grayOf magOf cfg htw hw hs0 hs1 fs _ 1 le_rfl
      win hmem
  · intro w tw htw hw
    exact centerWindow_spec htw hw

theorem claim_C1_witness :
    ((0 ≤ (9 : ℤ)) ∧ (9 : ℤ) ≤ 16 ∧ ((3, 12) : ℤ × ℤ) ∈
        faceWindows 16 9 60 [[]] ∧
      (0 ≤ ((3, 12) : ℤ × ℤ).1 ∧ ((3, 12) : ℤ × ℤ).2 ≤ 16 ∧
        ((3, 12) : ℤ × ℤ).2 - ((3, 12) : ℤ × ℤ).1 = 9)) ∧
    (((0, 9) : ℤ × ℤ) ∈ motionWindows (fun (_ : Unit) => ())
        (fun _ _ => ([] : List (List ℚ)))
        { updateInterval := 1, motionThreshold := 2, smoothing := 9 / 10,
          scaledWidth := 20, targetWidth := 9 } [()] ∧
      (0 ≤ ((0, 9) : ℤ × ℤ).1 ∧ ((0, 9) : ℤ × ℤ).2 ≤ (20 : ℤ) ∧
        ((0, 9) : ℤ × ℤ).2 - ((0, 9) : ℤ × ℤ).1 = 9)) ∧
    (0 ≤ (centerWindow 1920 607).1 ∧ (centerWindow 1920 607).2 ≤ 1920 ∧
      (centerWindow 1920 607).2 - (centerWindow 1920 607).1 = 607) := by
  refine ⟨⟨by decide, by decide, by decide, ?_⟩, ⟨by decide, ?_⟩, ?_⟩
  · exact claim_C1_crop_window_invariant.1 16 9 60 (by decide) (by decide)
      [[]] (3, 12) (by decide)
  · exact claim_C1_crop_window_invariant.2.1 Unit Unit (fun _ => ())
      (fun _ _ => [])
      { updateInterval := 1, motionThreshold := 2, smoothing := 9 / 10,
        scaledWidth := 20, targetWidth := 9 }
      (by decide) (by decide) (by norm_num) (by norm_num) [()] (0, 9)
      (by decide)
  · exact claim_C1_crop_window_invariant.2.2 1920 607 (by decide) (by decide)

/-- C2: the per-job target geometry is `targetHeight = originalHeight`
and `targetWidth = floor(targetHeight * 9 / 16)`; the job fails with the
incompatible-geometry error exactly when `originalWidth < targetWidth`,
independently of the frame stream (so before any frame is read); and the
500×1000 input (target width 562) fails this way. -/
theorem claim_C2_geometry_gate :
    ∀ (w h : ℕ) (rs : List FrameResult),
      cropTargetHeight h = h ∧
      cropTargetWidth h = ⌊((h : ℚ) * 9) / 16⌋₊ ∧
      ((cropToVertical w h rs =
          .error (.incompatibleGeometry w (cropTargetWidth h))) ↔
        w < cropTargetWidth h) ∧
      cropToVertical 500 1000 rs =
        .error (.incompatibleGeometry 500 562) := by
  intro w h rs
  refine ⟨rfl, ?_, ?_, ?_⟩
  · rw [show ((h : ℚ) * 9) = ((h * 9 : ℕ) : ℚ) by push_cast; ring,
      show (16 : ℚ) = ((16 : ℕ) : ℚ) by norm_num, Nat.floor_div_eq_div]
    rfl
  · constructor
    · intro heq
      by_contra hge
      rw [cropToVertical, if_neg hge] at heq
      exact Except.noConfusion heq
    · intro hlt
      rw [cropToVertical, if_pos hlt]
  · rw [cropToVertical, if_pos (by decide)]
    rfl

/-- C3 as frozen is false on the code: line 208 truncates the smoothed
position to an integer every frame. With `target_x` held at 10 and
`currentX_0 = 5`, the code computes `int(0.9*5 + (1-0.9)*10)`; the
intermediate IEEE double is exactly 5.5 (the same value this exact
model computes), so `currentX_1 = 5` — the tracker is stuck at distance
5 — while exact geometric decay would demand distance
`0.9^1 * 5 = 4.5`. -/
theorem claim_C3_counterexample :
    faceEmaIter 10 1 5 = 5 ∧
      |((faceEmaIter 10 1 5 : ℤ) : ℚ) - 10| ≠
        (9 / 10) ^ 1 * |((5 : ℤ) : ℚ) - 10| := by
  have h1 : faceEmaUpdate 5 10 = 5 := by
    rw [faceEmaUpdate_eq_floor 5 10 (by norm_num) (by norm_num)]
    norm_num
  have hit : faceEmaIter 10 1 5 = 5 := by simp [faceEmaIter, h1]
  have habs : |((5 : ℤ) : ℚ) - 10| = 5 := by
    rw [show ((5 : ℤ) : ℚ) - 10 = -5 by norm_num, abs_neg,
      abs_of_nonneg (by norm_num : (0 : ℚ) ≤ 5)]
  refine ⟨hit, ?_⟩
  rw [hit, habs]
  norm_num

/-- C3 (amended): on every frame with a non-empty detection the state
update is `currentX = int(0.9 * currentX + (1 - 0.9) * targetX)` — the
exponential moving average with fixed factor 0.9, truncated to an
integer each frame; consequently, under the exact-arithmetic
idealization of the two float coefficients (`0.9` read as `9/10` and
`1 - 0.9` as `1/10`), if `targetX` is held constant at an integer
`T ≥ 0` across `n` consecutive detected frames starting from
`currentX_0 ≥ 0`, then
`|currentX_n - T| ≤ 0.9^n * |currentX_0 - T| + 10 * (1 - 0.9^n)`:
geometric decay holds only as an inequality, up to an accumulated
truncation error that is always < 10, not as the claimed exact
equality. -/
theorem claim_C3_truncated_ema_decay :
    (∀ (w tw ro : ℤ) (faces : List Rect) (st : FaceState) (f : Rect),
      bestFace? faces = some f →
      (faceStep w tw ro faces st).1.currentX =
        pyInt ((9 : ℚ) / 10 * st.currentX +
          (1 - (9 : ℚ) / 10) * (faceTargetX w tw ro f : ℚ))) ∧
    (∀ (t : ℤ), 0 ≤ t → ∀ (n : ℕ) (c : ℤ), 0 ≤ c →
      |((faceEmaIter t n c : ℤ) : ℚ) - t| ≤
        (9 / 10) ^ n * |(c : ℚ) - t| + 10 * (1 - (9 / 10) ^ n)) := by
  constructor
  · intro w tw ro faces st f hb
    unfold faceStep
    rw [hb]
    rfl
  · exact faceEmaIter_decay

theorem claim_C3_witness :
    (bestFace? [({ x := 2, y := 3, w := 4, h := 5 } : Rect)] =
        some { x := 2, y := 3, w := 4, h := 5 } ∧
      (faceStep 16 9 60 [{ x := 2, y := 3, w := 4, h := 5 }]
          (initFaceState 16 9)).1.currentX =
        pyInt ((9 : ℚ) / 10 * (initFaceState 16 9).currentX +
          (1 - (9 : ℚ) / 10) *
            (faceTargetX 16 9 60 { x := 2, y := 3, w := 4, h := 5 } : ℚ))) ∧
    (0 ≤ (10 : ℤ) ∧ 0 ≤ (5 : ℤ) ∧
      |((faceEmaIter 10 1 5 : ℤ) : ℚ) - 10| ≤
        (9 / 10) ^ 1 * |((5 : ℤ) : ℚ) - 10| + 10 * (1 - (9 / 10) ^ 1)) := by
  refine ⟨⟨by decide, ?_⟩, by decide, by decide, ?_⟩
  · exact claim_C3_truncated_ema_decay.1 16 9 60 _ _ _ (by decide)
  · exact claim_C3_truncated_ema_decay.2 10 (by decide) 1 5 (by decide)

/-- C4: on a frame with an empty detection set, if `everDetected` is
false the tracked position is reset to the static center and the rest of
the state is unchanged; if `everDetected` is true the whole tracker
state is unchanged, and this hold persists over any number of
consecutive empty-detection frames. -/
theorem claim_C4_empty_detection_hold :
    ∀ (w tw ro : ℤ) (st : FaceState),
      (st.faceDetected = false →
        (faceStep w tw ro [] st).1 = { st with currentX := centerX w tw }) ∧
      (st.faceDetected = true → (faceStep w tw ro [] st).1 = st) ∧
      (∀ n : ℕ, st.faceDetected = true →
        faceStateAfterEmpties w tw ro n st = st) := by
  intro w tw ro st
  exact ⟨fun hd => faceStep_empty_never hd,
    fun hd => faceStep_empty_detected hd,
    fun n hd => faceStateAfterEmpties_hold n st hd⟩

theorem claim_C4_witness :
    (({ currentX := 7, faceDetected := false, lastFaceX := 7,
          faceCount := 0 } : FaceState).faceDetected = false ∧
      (faceStep 16 9 60 []
          { currentX := 7, faceDetected := false, lastFaceX := 7,
            faceCount := 0 }).1 =
        { currentX := centerX 16 9, faceDetected := false, lastFaceX := 7,
          faceCount := 0 }) ∧
    (({ currentX := 5, faceDetected := true, lastFaceX := 8,
          faceCount := 2 } : FaceState).faceDetected = true ∧
      faceStateAfterEmpties 16 9 60 3
          { currentX := 5, faceDetected := true, lastFaceX := 8,
            faceCount := 2 } =
        { currentX := 5, faceDetected := true, lastFaceX := 8,
          faceCount := 2 }) := by
  refine ⟨⟨rfl, ?_⟩, rfl, ?_⟩
  · exact (claim_C4_empty_detection_hold 16 9 60 _).1 rfl
  · exact (claim_C4_empty_detection_hold 16 9 60 _).2.2 3 rfl

/-- C5: per-frame failures are contained at the frame boundary of
`_write_cropped_video`: a frame whose crop raises or comes back
degenerate is skipped (not written, not counted), one warning is
surfaced for it, the loop continues, and the job still returns success;
in particular the 100-frame job with failures forced on frames 10-20
completes with 89 frames processed and 11 warnings. -/
theorem claim_C5_per_frame_containment :
    (∀ rs : List FrameResult,
      writeCroppedVideo rs =
        (rs.countP (·.written), rs.countP (fun r => !r.written), true)) ∧
    writeCroppedVideo faultScenario = (89, 11, true) := by
  constructor
  · intro rs
    unfold writeCroppedVideo
    rw [writeLoop_acc rs 0 0]
    simp
  · decide

/-- C6 as frozen is false on the code: line 266 computes
`max(1, int(fps * update_interval))`, truncating the product rather than
rounding it to the nearest integer. At `fps = 1.9`,
`updateIntervalSeconds = 1` the code yields 1 while the claimed rounding
yields 2. -/
theorem claim_C6_counterexample :
    motionUpdateInterval (19 / 10) 1 ≠
      max 1 (specRoundNearest ((19 / 10) * 1)) := by
  have hcode : motionUpdateInterval (19 / 10) 1 = 1 := by
    unfold motionUpdateInterval
    rw [pyInt_of_nonneg (by norm_num)]
    norm_num
  have hspec : max 1 (specRoundNearest ((19 / 10) * 1)) = 2 := by
    unfold specRoundNearest
    norm_num
  rw [hcode, hspec]
  decide

/-- C6 (amended): in the motion-tracking strategy the refresh cadence is
`updateInterval = max(1, floor(fps * updateIntervalSeconds))` — the
product truncated (floor, as it is positive), not rounded — and it is at
least 1, for every `fps > 0` and `updateIntervalSeconds > 0`. -/
theorem claim_C6_truncated_interval :
    ∀ (fps s : ℚ), 0 < fps → 0 < s →
      motionUpdateInterval fps s = max 1 ⌊fps * s⌋ ∧
        1 ≤ motionUpdateInterval fps s := by
  intro fps s hf hs
  have h : motionUpdateInterval fps s = max 1 ⌊fps * s⌋ := by
    unfold motionUpdateInterval
    rw [pyInt_of_nonneg (by positivity)]
  exact ⟨h, h ▸ le_max_left 1 _⟩

theorem claim_C6_witness :
    (0 : ℚ) < 19 / 10 ∧ (0 : ℚ) < 1 ∧
      motionUpdateInterval (19 / 10) 1 = max 1 ⌊(19 / 10 : ℚ) * 1⌋ ∧
      1 ≤ motionUpdateInterval (19 / 10) 1 := by
  refine ⟨by norm_num, by norm_num, ?_, ?_⟩
  · exact (claim_C6_truncated_interval (19 / 10) 1 (by norm_num)
      (by norm_num)).1
  · exact (claim_C6_truncated_interval (19 / 10) 1 (by norm_num)
      (by norm_num)).2

/-- C7: in the motion strategy, `smoothedX` can change only on a frame
whose `POS_FRAMES` index is divisible by `updateInterval` and whose
significant-motion mask (against the previous stored grayscale frame)
is non-empty; on every other frame it is unchanged. -/
theorem claim_C7_refresh_gating :
    ∀ (φ γ : Type) (grayOf : φ → γ) (magOf : γ → γ → List (List ℚ))
      (cfg : MotionCfg) (frameIndex : ℤ) (frame : φ) (st : MotionState γ),
      refreshMaskCond grayOf magOf cfg frameIndex frame st = false →
      (motionStep grayOf magOf cfg frameIndex frame st).1.smoothedX =
        st.smoothedX := by
  intro φ γ grayOf magOf cfg frameIndex frame st h
  exact motionStep_hold grayOf magOf cfg frameIndex frame st h

theorem claim_C7_witness :
    refreshMaskCond (fun (_ : Unit) => ())
        (fun _ _ => ([[5]] : List (List ℚ)))
        { updateInterval := 2, motionThreshold := 2, smoothing := 9 / 10,
          scaledWidth := 20, targetWidth := 9 } 1 ()
        { smoothedX := 5, prevGray := none } = false ∧
      (motionStep (fun (_ : Unit) => ())
          (fun _ _ => ([[5]] : List (List ℚ)))
          { updateInterval := 2, motionThreshold := 2, smoothing := 9 / 10,
            scaledWidth := 20, targetWidth := 9 } 1 ()
          { smoothedX := 5, prevGray := none }).1.smoothedX = 5 := by
  refine ⟨rfl, ?_⟩
  exact claim_C7_refresh_gating Unit Unit _ _ _ 1 () _ rfl

/-- C8: the outcome emitted for a cancelled job (`success=False`,
message `用户取消了处理`) differs from the outcome of every completed
job and of every failed job of `CropWorker.run`. -/
theorem claim_C8_cancellation_distinct :
    ∀ (e₁ e₂ e₃ : WorkerEnd), e₁.isCancelled = true →
      e₂.isCompleted = true → e₃.isFailed = true →
      workerOutcome e₁ ≠ workerOutcome e₂ ∧
        workerOutcome e₁ ≠ workerOutcome e₃ := by
  intro e₁ e₂ e₃ h1 h2 h3
  rw [workerOutcome_cancelled h1]
  have lenCancel : ("用户取消了处理" : String).length = 7 := by decide
  constructor
  · cases e₂ with
    | loopDone s r =>
      rw [WorkerEnd.isCompleted, Bool.and_eq_true] at h2
      obtain ⟨hs, hr⟩ := h2
      subst hs; subst hr
      intro hEq
      exact absurd (congrArg Outcome.success hEq) (by simp [workerOutcome])
    | cannotOpen p => simp [WorkerEnd.isCompleted] at h2
    | badGeometry w tw => simp [WorkerEnd.isCompleted] at h2
    | exnDuring m => simp [WorkerEnd.isCompleted] at h2
  · cases e₃ with
    | cannotOpen p =>
      intro hEq
      have hm : ("用户取消了处理" : String) = "无法打开视频文件 " ++ p :=
        congrArg Outcome.message hEq
      have hl := congrArg String.length hm
      rw [String.length_append, lenCancel,
        show ("无法打开视频文件 " : String).length = 9 by decide] at hl
      omega
    | badGeometry w tw =>
      intro hEq
      have hm : ("用户取消了处理" : String) =
          "输入视频宽度(" ++ toString w ++ ")小于目标宽度(" ++
            toString tw ++ ")" := congrArg Outcome.message hEq
      have hl := congrArg String.length hm
      rw [String.length_append, String.length_append,
        String.length_append, String.length_append, lenCancel,
        show ("输入视频宽度(" : String).length = 7 by decide,
        show (")小于目标宽度(" : String).length = 8 by decide,
        show (")" : String).length = 1 by decide] at hl
      omega
    | exnDuring m =>
      intro hEq
      have hm : ("用户取消了处理" : String) = "裁剪过程中发生错误: " ++ m :=
        congrArg Outcome.message hEq
      have hl := congrArg String.length hm
      rw [String.length_append, lenCancel,
        show ("裁剪过程中发生错误: " : String).length = 11 by decide] at hl
      omega
    | loopDone s r =>
      cases s <;> cases r <;>
        simp [WorkerEnd.isFailed, WorkerEnd.isCompleted,
          WorkerEnd.isCancelled] at h3 <;>
        decide

theorem claim_C8_witness :
    (WorkerEnd.loopDone true false).isCancelled = true ∧
      (WorkerEnd.loopDone true true).isCompleted = true ∧
      (WorkerEnd.exnDuring "x").isFailed = true ∧
      workerOutcome (.loopDone true false) ≠
        workerOutcome (.loopDone true true) ∧
      workerOutcome (.loopDone true false) ≠
        workerOutcome (.exnDuring "x") := by
  refine ⟨rfl, rfl, rfl, ?_, ?_⟩
  · exact (claim_C8_cancellation_distinct (.loopDone true false)
      (.loopDone true true) (.exnDuring "x") rfl rfl rfl).1
  · exact (claim_C8_cancellation_distinct (.loopDone true false)
      (.loopDone true true) (.exnDuring "x") rfl rfl rfl).2

/-- C9: for every frame, the GUI's motion-tracking variant computes
optical flow but discards it and writes exactly the frame the GUI
center strategy writes (crop at `xStart = (originalWidth -
targetWidth) // 2`), for any previous-frame state and any frame
sequence. -/
theorem claim_C9_gui_motion_is_center :
    ∀ (φ γ δ : Type) (toGray : φ → γ) (flowOf : γ → γ → δ)
      (sliceCols : φ → ℤ → ℤ → φ) (shape : φ → ℕ × ℕ)
      (resize : φ → ℕ → ℕ → φ) (w tw th : ℕ) (prev : Option γ)
      (fs : List φ),
      guiMotionRun toGray flowOf sliceCols shape resize w tw th prev fs =
        fs.map (guiCenterFrame sliceCols shape resize w tw th) := by
  intro φ γ δ toGray flowOf sliceCols shape resize w tw th prev fs
  induction fs generalizing prev with
  | nil => rfl
  | cons f fs ih =>
    rw [guiMotionRun, List.map_cons, ih]
    rfl

/-- C10: the batch tool's motion strategy initializes `smoothedX` to 0
(not to the center position), so every frame processed before the first
refresh frame with a non-empty significant-motion mask is cropped at the
leftmost window `[0, targetWidth)` of the scaled frame — which differs
from the center window whenever the scaled frame has at least two spare
columns. -/
theorem claim_C10_initial_leftmost :
    ∀ (φ γ : Type) (grayOf : φ → γ) (magOf : γ → γ → List (List ℚ))
      (cfg : MotionCfg), 0 ≤ cfg.targetWidth →
      cfg.targetWidth ≤ (cfg.scaledWidth : ℤ) →
      (motionInitState γ).smoothedX = 0 ∧
      (∀ fs : List φ,
        noEarlyMotion grayOf magOf cfg (motionInitState γ) 1 fs = true →
        motionWindows grayOf magOf cfg fs =
          List.replicate fs.length (0, cfg.targetWidth)) ∧
      (cfg.targetWidth + 2 ≤ (cfg.scaledWidth : ℤ) →
        (0 : ℤ) ≠ (centerWindow (cfg.scaledWidth : ℤ) cfg.targetWidth).1) := by
  intro φ γ grayOf magOf cfg htw hw
  refine ⟨rfl, ?_, ?_⟩
  · intro fs hne
    exact motionRun_noEarly grayOf magOf cfg htw hw fs _ 1 rfl hne
  · intro h2
    exact (centerX_pos h2).ne

theorem claim_C10_witness :
    (0 ≤ (9 : ℤ)) ∧ ((9 : ℤ) ≤ (20 : ℕ)) ∧
      (motionInitState Unit).smoothedX = 0 ∧
      noEarlyMotion (fun (_ : Unit) => ())
        (fun _ _ => ([] : List (List ℚ)))
        { updateInterval := 1, motionThreshold := 2, smoothing := 9 / 10,
          scaledWidth := 20, targetWidth := 9 }
        (motionInitState Unit) 1 [(), ()] = true ∧
      motionWindows (fun (_ : Unit) => ())
        (fun _ _ => ([] : List (List ℚ)))
        { updateInterval := 1, motionThreshold := 2, smoothing := 9 / 10,
          scaledWidth := 20, targetWidth := 9 } [(), ()] =
        List.replicate 2 ((0 : ℤ), (9 : ℤ)) ∧
      (0 : ℤ) ≠ (centerWindow ((20 : ℕ) : ℤ) 9).1 := by
  refine ⟨by decide, by decide, rfl, rfl, ?_, ?_⟩
  · exact (claim_C10_initial_leftmost Unit Unit (fun _ => ())
      (fun _ _ => [])
      { updateInterval := 1, motionThreshold := 2, smoothing := 9 / 10,
        scaledWidth := 20, targetWidth := 9 }
      (by decide) (by decide)).2.1 [(), ()] rfl
  · exact (claim_C10_initial_leftmost Unit Unit (fun _ => ())
      (fun _ _ => [])
      { updateInterval := 1, motionThreshold := 2, smoothing := 9 / 10,
        scaledWidth := 20, targetWidth := 9 }
      (by decide) (by decide)).2.2 (by decide)

end VVC
